import Mathlib

/-!
Shallow embedding of the computer-use agent's control loop, action gate,
credential broker, CAPTCHA resolver and tool-result serialization
(src/computer_use_agent/{agent,human_loop,captcha}.py and tools/{base,credential}.py),
together with theorems settling the specification claims.

Strings are modelled as `List Char`; Python's `str.lower()` is modelled
character-wise by `Char.toLower`, and Python truthiness of optional strings
(`if s:`) by `pyTruthy`.  External effects (the model API, the CAPTCHA vendor,
human prompts, tool dispatch, file reads) are modelled as oracle parameters.
-/

set_option autoImplicit false

namespace CUA

/-- Character-list form of a string literal (the representation used throughout). -/
def lit (s : String) : List Char := s.toList

/-- Python `str.lower()`, applied character-wise. -/
def lowerStr (s : List Char) : List Char := s.map Char.toLower

/-- Python's substring test `needle in hay`. -/
def containsSub (needle hay : List Char) : Bool := decide (needle <:+: hay)

/-! ## Action Gate (human_loop.py) -/

/-- Modes of `HumanLoopMode` in config.py. -/
inductive HumanLoopMode where
  | always_confirm
  | sensitive_only
  | minimal
  deriving DecidableEq

/-- Fixed sensitive-keyword list from `HumanLoopHandler.should_prompt_for_action`. -/
def sensitiveKeywords : List (List Char) :=
  [lit "login", lit "sign in", lit "signin", lit "password", lit "credential",
   lit "payment", lit "purchase", lit "buy", lit "checkout", lit "credit card",
   lit "bank", lit "transfer", lit "submit", lit "confirm", lit "delete",
   lit "remove", lit "unsubscribe", lit "cancel"]

/-- Embedding of `HumanLoopHandler.should_prompt_for_action`. -/
def shouldPromptForAction (mode : HumanLoopMode) (action_description : List Char) : Bool :=
  match mode with
  | .always_confirm => true
  | .minimal => false
  | .sensitive_only =>
      sensitiveKeywords.any (fun kw => containsSub kw (lowerStr action_description))

/-! ## Action descriptors (ComputerUseAgent._describe_action) -/

/-- Tool-input dictionary: the keys `_describe_action` and the tools read. -/
structure ToolInput where
  action : Option (List Char) := none
  coordinate : Option (Nat × Nat) := none
  text : Option (List Char) := none
  key : Option (List Char) := none
  scroll_direction : Option (List Char) := none
  command : Option (List Char) := none
  deriving DecidableEq

/-- Embedding of `ComputerUseAgent._describe_action`. -/
def describeAction (tool_name : List Char) (tool_input : ToolInput) : List Char :=
  if tool_name = lit "computer" then
    let action := tool_input.action.getD (lit "unknown")
    if action = lit "screenshot" then lit "Take a screenshot"
    else if action = lit "left_click" then
      let coord := tool_input.coordinate.getD (0, 0)
      lit "Click at position (" ++ Nat.toDigits 10 coord.1 ++ lit ", " ++
        Nat.toDigits 10 coord.2 ++ lit ")"
    else if action = lit "type" then
      let text := tool_input.text.getD []
      if text.length > 0 then lit "Type text: " ++ List.replicate text.length '*'
      else lit "Type text"
    else if action = lit "key" then lit "Press key: " ++ tool_input.key.getD (lit "unknown")
    else if action = lit "scroll" then
      lit "Scroll " ++ tool_input.scroll_direction.getD (lit "down")
    else lit "Computer action: " ++ action
  else if tool_name = lit "bash" then
    let cmd := tool_input.command.getD []
    if cmd.length > 50 then lit "Run command: " ++ cmd.take 50 ++ lit "..."
    else lit "Run command: " ++ cmd
  else lit "Execute " ++ tool_name

/-! ## ToolResult and its wire serialization (tools/base.py) -/

/-- Embedding of the `ToolResult` dataclass. -/
structure ToolResult where
  output : Option (List Char) := none
  error : Option (List Char) := none
  base64_image : Option (List Char) := none
  deriving DecidableEq

/-- Python truthiness of an optional string: `None` and the empty string are falsy. -/
def pyTruthy (o : Option (List Char)) : Bool :=
  match o with
  | none => false
  | some s => !s.isEmpty

/-- Embedding of the `ToolResult.is_error` property (`error is not None`). -/
def ToolResult.is_error (r : ToolResult) : Bool := r.error.isSome

/-- Typed part of a list-shaped API tool result. -/
inductive ApiBlock where
  | text (t : List Char)
  | image (data : List Char)
  deriving DecidableEq

/-- Wire shape of a tool result: a plain string or a list of typed parts. -/
inductive ApiRes where
  | str (s : List Char)
  | blocks (bs : List ApiBlock)
  deriving DecidableEq

/-- Embedding of `ToolResult.to_api_result`. -/
def ToolResult.toApiResult (r : ToolResult) : ApiRes :=
  if r.is_error then
    ApiRes.str (if pyTruthy r.error then r.error.getD [] else lit "An error occurred")
  else if pyTruthy r.base64_image then
    ApiRes.blocks
      ((if pyTruthy r.output then [ApiBlock.text (r.output.getD [])] else []) ++
        [ApiBlock.image (r.base64_image.getD [])])
  else if pyTruthy r.output then ApiRes.str (r.output.getD [])
  else ApiRes.str (lit "Action completed successfully.")

/-! ## Credential broker (tools/credential.py and HumanLoopHandler prompts) -/

/-- Embedding of the `HumanInput` dataclass. -/
structure HumanInput where
  value : List Char
  cancelled : Bool := false
  deriving DecidableEq

/-- Embedding of `HumanLoopHandler.prompt_password`: the oracle argument is the
outcome of the blocking hidden input, where `Except.error` models a
`KeyboardInterrupt` raised during the prompt. -/
def prompt_password (inputAttempt : Except Unit (List Char)) : HumanInput :=
  match inputAttempt with
  | .ok v => { value := v }
  | .error _ => { value := [], cancelled := true }

/-- Oracle bundle for the four human credential prompts, each taking the
contextual string the code passes to it. -/
structure CredPrompts where
  username : List Char → HumanInput
  password : List Char → HumanInput
  twofa : HumanInput
  custom : List Char → HumanInput

/-- Dispatch of `CredentialTool.execute` onto the prompt matching
`credential_type`; `none` models the unknown-credential-type branch. -/
def requestedPrompt (p : CredPrompts) (ctype service customMsg : List Char) :
    Option HumanInput :=
  if ctype = lit "username" then some (p.username service)
  else if ctype = lit "password" then some (p.password service)
  else if ctype = lit "2fa" then some p.twofa
  else if ctype = lit "custom" then
    some (p.custom (if customMsg.isEmpty then
      lit "Please enter the requested information for " ++ service else customMsg))
  else none

/-- Embedding of `CredentialTool.execute` (kwargs defaults included). -/
def credentialExecute (p : CredPrompts)
    (credential_type service_name custom_message : Option (List Char)) : ToolResult :=
  let ct := credential_type.getD (lit "username")
  let sv := service_name.getD (lit "the service")
  let cm := custom_message.getD []
  match requestedPrompt p ct sv cm with
  | none => { error := some (lit "Unknown credential type: " ++ ct) }
  | some inp =>
    if inp.cancelled then { error := some (lit "User cancelled the credential request") }
    else { output := some inp.value }

/-! ## Tool execution with gating (ComputerUseAgent._execute_tool) -/

/-- Tool names registered on the agent (`self.tools = [computer_tool, bash_tool]`). -/
def agentToolNames : List (List Char) := [lit "computer", lit "bash"]

/-- Embedding of `ComputerUseAgent._execute_tool`.  `confirm` is the human
yes/no decision oracle given the rendered descriptor, and `dispatch` the
execution oracle for registered tools. -/
def executeTool (toolNames : List (List Char)) (mode : HumanLoopMode)
    (confirm : List Char → Bool) (dispatch : List Char → ToolInput → ToolResult)
    (tool_name : List Char) (tool_input : ToolInput) : ToolResult :=
  if !(toolNames.contains tool_name) then
    { error := some (lit "Unknown tool: " ++ tool_name) }
  else
    let desc := describeAction tool_name tool_input
    if shouldPromptForAction mode desc then
      if confirm desc then dispatch tool_name tool_input
      else { error := some (lit "Action cancelled by user") }
    else dispatch tool_name tool_input

/-! ## CAPTCHA resolver (captcha.py) -/

/-- Values of the `CaptchaType` enum. -/
inductive CaptchaType where
  | amazon_waf
  | recaptcha_v2
  | recaptcha_v3
  | turnstile
  | image_to_text
  deriving DecidableEq

/-- Embedding of the `CaptchaResult` dataclass. -/
structure CaptchaResult where
  success : Bool
  solution : Option (List Char) := none
  error : Option (List Char) := none
  captcha_type : Option CaptchaType := none
  deriving DecidableEq

/-- Response object returned by the CapMonster client: each field is `some`
exactly when the Python object has the corresponding attribute. -/
structure VendorResponse where
  solution : Option (List Char) := none
  gRecaptchaResponse : Option (List Char) := none
  token : Option (List Char) := none
  text : Option (List Char) := none

/-- Outcome of one `client.solve_captcha` call (together with building the
request): an exception carrying its message, or a possibly-falsy response. -/
abbrev VendorCall := Except (List Char) (Option VendorResponse)

/-- Result built when the vendor returned no usable solution field. -/
def noSolutionResult (t : CaptchaType) : CaptchaResult :=
  { success := false, error := some (lit "No solution returned from CapMonster"),
    captcha_type := some t }

/-- Embedding of `CaptchaSolver.solve_amazon_waf`; the url/key/proxy arguments
only shape the vendor request, which the `vendor` oracle abstracts. -/
def solve_amazon_waf (vendor : VendorCall) (_website_url : List Char) : CaptchaResult :=
  match vendor with
  | .error e =>
      { success := false, error := some (lit "Amazon WAF CAPTCHA solving failed: " ++ e),
        captcha_type := some .amazon_waf }
  | .ok none => noSolutionResult .amazon_waf
  | .ok (some r) =>
    match r.solution with
    | some s => { success := true, solution := some s, captcha_type := some .amazon_waf }
    | none => noSolutionResult .amazon_waf

/-- Embedding of `CaptchaSolver.solve_recaptcha_v2`. -/
def solve_recaptcha_v2 (vendor : VendorCall) (_website_url _website_key : List Char) :
    CaptchaResult :=
  match vendor with
  | .error e =>
      { success := false, error := some (lit "reCAPTCHA v2 solving failed: " ++ e),
        captcha_type := some .recaptcha_v2 }
  | .ok none => noSolutionResult .recaptcha_v2
  | .ok (some r) =>
    match r.gRecaptchaResponse with
    | some s => { success := true, solution := some s, captcha_type := some .recaptcha_v2 }
    | none => noSolutionResult .recaptcha_v2

/-- Embedding of `CaptchaSolver.solve_recaptcha_v3`. -/
def solve_recaptcha_v3 (vendor : VendorCall) (_website_url _website_key : List Char) :
    CaptchaResult :=
  match vendor with
  | .error e =>
      { success := false, error := some (lit "reCAPTCHA v3 solving failed: " ++ e),
        captcha_type := some .recaptcha_v3 }
  | .ok none => noSolutionResult .recaptcha_v3
  | .ok (some r) =>
    match r.gRecaptchaResponse with
    | some s => { success := true, solution := some s, captcha_type := some .recaptcha_v3 }
    | none => noSolutionResult .recaptcha_v3

/-- Embedding of `CaptchaSolver.solve_turnstile`. -/
def solve_turnstile (vendor : VendorCall) (_website_url _website_key : List Char) :
    CaptchaResult :=
  match vendor with
  | .error e =>
      { success := false, error := some (lit "Turnstile solving failed: " ++ e),
        captcha_type := some .turnstile }
  | .ok none => noSolutionResult .turnstile
  | .ok (some r) =>
    match r.token with
    | some s => { success := true, solution := some s, captcha_type := some .turnstile }
    | none => noSolutionResult .turnstile

/-- Loading step of `solve_image_captcha`: read and base64-encode the file at
`image_path` when a path is given and no (truthy) base64 image is; `readF`
models the file read, with `Except.error` a raised exception's message. -/
def loadedImage (readF : List Char → Except (List Char) (List Char))
    (image_path image_base64 : Option (List Char)) :
    Except (List Char) (Option (List Char)) :=
  if pyTruthy image_path && !(pyTruthy image_base64) then
    match readF (image_path.getD []) with
    | .ok s => .ok (some s)
    | .error e => .error e
  else .ok image_base64

/-- Embedding of `CaptchaSolver.solve_image_captcha`.  `readF` models reading
and base64-encoding the file at `image_path` (`Except.error` is a raised
exception's message); `vendor` models the CapMonster call. -/
def solve_image_captcha (readF : List Char → Except (List Char) (List Char))
    (vendor : VendorCall) (image_path image_base64 : Option (List Char)) : CaptchaResult :=
  match loadedImage readF image_path image_base64 with
  | .error e =>
      { success := false, error := some (lit "Image CAPTCHA solving failed: " ++ e),
        captcha_type := some .image_to_text }
  | .ok b64 =>
    if !(pyTruthy b64) then
      { success := false, error := some (lit "No image provided"),
        captcha_type := some .image_to_text }
    else
      match vendor with
      | .error e =>
          { success := false, error := some (lit "Image CAPTCHA solving failed: " ++ e),
            captcha_type := some .image_to_text }
      | .ok none => noSolutionResult .image_to_text
      | .ok (some r) =>
        match r.text with
        | some s => { success := true, solution := some s, captcha_type := some .image_to_text }
        | none => noSolutionResult .image_to_text

/-! ### Detection (CaptchaSolver.detect_and_solve) -/

/-- Character class `[a-zA-Z0-9_-]` of the render-parameter regex. -/
def isWordChar (c : Char) : Bool := c.isAlphanum || c = '_' || c = '-'

/-- Quote characters of the site-key regex, spelled via code points. -/
def isQuoteChar (c : Char) : Bool := c = Char.ofNat 34 || c = Char.ofNat 39

/-- Attempt of the regex `render=([a-zA-Z0-9_-]+)` anchored at the head of the
list; returns the greedy capture group. -/
def renderKeyAt (l : List Char) : Option (List Char) :=
  if (lit "render=").isPrefixOf l then
    let key := (l.drop 7).takeWhile isWordChar
    if key.isEmpty then none else some key
  else none

/-- Leftmost-match search of `render=([a-zA-Z0-9_-]+)`, as `re.search` does. -/
def searchRenderKey : List Char → Option (List Char)
  | [] => none
  | c :: cs =>
    match renderKeyAt (c :: cs) with
    | some k => some k
    | none => searchRenderKey cs

/-- Attempt of the regex `data-sitekey=["\x27]([^"\x27]+)["\x27]` anchored at
the head of the list. -/
def siteKeyAt (l : List Char) : Option (List Char) :=
  if (lit "data-sitekey=").isPrefixOf l then
    match l.drop 13 with
    | [] => none
    | q :: rest =>
      if isQuoteChar q then
        let key := rest.takeWhile (fun c => !isQuoteChar c)
        if key.isEmpty then none
        else
          match rest.drop key.length with
          | [] => none
          | c :: _ => if isQuoteChar c then some key else none
      else none
  else none

/-- Leftmost-match search of the site-key regex, as `re.search` does. -/
def searchSiteKey : List Char → Option (List Char)
  | [] => none
  | c :: cs =>
    match siteKeyAt (c :: cs) with
    | some k => some k
    | none => searchSiteKey cs

/-- Which solver `detect_and_solve` dispatches to, with the arguments the code
passes to it. -/
inductive Detection where
  | amazonWaf (url : List Char)
  | recaptchaV3 (url key : List Char)
  | recaptchaV2 (url key : List Char)
  | turnstile (url key : List Char)
  | imageToText (screenshot : List Char)
  deriving DecidableEq

/-- HTML-based detection chain of `detect_and_solve`, for truthy (nonempty)
HTML. -/
def detectFromHtml (website_url h : List Char) : Option Detection :=
  let hl := lowerStr h
  if containsSub (lit "awswaf") hl || containsSub (lit "amazon") (lowerStr website_url) then
    some (.amazonWaf website_url)
  else
    match (if containsSub (lit "recaptcha/api.js?render=") hl
           then searchRenderKey h else none) with
    | some k => some (.recaptchaV3 website_url k)
    | none =>
      match (if containsSub (lit "g-recaptcha") hl || containsSub (lit "recaptcha") hl
             then searchSiteKey h else none) with
      | some k => some (.recaptchaV2 website_url k)
      | none =>
        match (if containsSub (lit "turnstile") hl || containsSub (lit "cf-turnstile") hl
               then searchSiteKey h else none) with
        | some k => some (.turnstile website_url k)
        | none => none

/-- HTML detection including Python truthiness of the `page_html` argument. -/
def htmlDetection (website_url : List Char) (page_html : Option (List Char)) :
    Option Detection :=
  match page_html with
  | some h => if h.isEmpty then none else detectFromHtml website_url h
  | none => none

/-- Result returned when no detection rule fires and no screenshot is given. -/
def noDetectResult : CaptchaResult :=
  { success := false, error := some (lit "Could not detect CAPTCHA type") }

/-- Embedding of `CaptchaSolver.detect_and_solve`; `solve` abstracts the five
per-type solve methods the branches dispatch to. -/
def detectAndSolve (solve : Detection → CaptchaResult) (website_url : List Char)
    (page_html screenshot_base64 : Option (List Char)) : CaptchaResult :=
  match htmlDetection website_url page_html with
  | some d => solve d
  | none =>
    match screenshot_base64 with
    | some s => if s.isEmpty then noDetectResult else solve (.imageToText s)
    | none => noDetectResult

/-! ## Control loop (ComputerUseAgent.run) -/

/-- Content blocks of an assistant response (the attribute-probed variants the
loop inspects: text, thinking, tool_use). -/
inductive ContentBlock where
  | text (s : List Char)
  | thinking (s : List Char)
  | toolUse (id name : List Char) (input : ToolInput)
  deriving DecidableEq

/-- Response of one `client.beta.messages.create` call. -/
structure ModelResponse where
  stop_reason : List Char
  content : List ContentBlock
  deriving DecidableEq

/-- Wire form of one tool result appended to the following user message. -/
structure ToolResultWire where
  tool_use_id : List Char
  content : ApiRes
  is_error : Bool
  deriving DecidableEq

/-- Content of a conversation message: the plain task string, assistant
content blocks, or a list of tool results. -/
inductive MessageContent where
  | plain (s : List Char)
  | blocks (bs : List ContentBlock)
  | results (rs : List ToolResultWire)
  deriving DecidableEq

/-- One entry of `self.messages`. -/
structure Message where
  role : List Char
  content : MessageContent
  deriving DecidableEq

/-- Per-iteration tool processing: for each `tool_use` block in received
order, execute the tool and build its wire result with the block's id. -/
def processTools (execTool : List Char → ToolInput → ToolResult) :
    List ContentBlock → List ToolResultWire
  | [] => []
  | .toolUse i n inp :: rest =>
    let r := execTool n inp
    { tool_use_id := i, content := r.toApiResult, is_error := r.is_error } ::
      processTools execTool rest
  | .text _ :: rest => processTools execTool rest
  | .thinking _ :: rest => processTools execTool rest

/-- Identifiers of the `tool_use` blocks of a turn, in received order. -/
def toolUseIds : List ContentBlock → List (List Char)
  | [] => []
  | .toolUse i _ _ :: rest => i :: toolUseIds rest
  | .text _ :: rest => toolUseIds rest
  | .thinking _ :: rest => toolUseIds rest

/-- Concatenation of the text blocks of a turn, in order. -/
def concatTexts : List ContentBlock → List Char
  | [] => []
  | .text s :: rest => s ++ concatTexts rest
  | .toolUse _ _ _ :: rest => concatTexts rest
  | .thinking _ :: rest => concatTexts rest

/-- Messages appended by one non-final iteration: the assistant turn, then —
when any tool results were collected — exactly one user message carrying them. -/
def stepResponse (execTool : List Char → ToolInput → ToolResult)
    (msgs : List Message) (r : ModelResponse) : List Message :=
  let msgs1 := msgs ++ [{ role := lit "assistant", content := .blocks r.content }]
  let results := processTools execTool r.content
  if results.isEmpty then msgs1
  else msgs1 ++ [{ role := lit "user", content := .results results }]

/-- Observable outcome of a run: final string, number of model calls made,
and the final conversation state. -/
structure RunResult where
  final : List Char
  modelCalls : Nat
  messages : List Message
  deriving DecidableEq

/-- Body of the `for iteration in range(max_iterations)` loop of
`ComputerUseAgent.run`; `model` is the API oracle (`Except.error` models a
raised `anthropic.APIError`). -/
def runAux (model : List Message → Except (List Char) ModelResponse)
    (execTool : List Char → ToolInput → ToolResult) :
    Nat → List Message → RunResult
  | 0, msgs =>
    { final := lit "Task incomplete: maximum iterations reached", modelCalls := 0,
      messages := msgs }
  | fuel + 1, msgs =>
    match model msgs with
    | .error e => { final := lit "API error: " ++ e, modelCalls := 1, messages := msgs }
    | .ok r =>
      if r.stop_reason = lit "end_turn" then
        { final := concatTexts r.content, modelCalls := 1,
          messages := msgs ++ [{ role := lit "assistant", content := .blocks r.content }] }
      else
        let rest := runAux model execTool fuel (stepResponse execTool msgs r)
        { final := rest.final, modelCalls := rest.modelCalls + 1, messages := rest.messages }

/-- Embedding of `ComputerUseAgent.run`: seed the history with the task as a
single user message and iterate. -/
def run (model : List Message → Except (List Char) ModelResponse)
    (execTool : List Char → ToolInput → ToolResult)
    (task : List Char) (max_iterations : Nat) : RunResult :=
  runAux model execTool max_iterations [{ role := lit "user", content := .plain task }]

/-! ## Theorems settling the claims -/

/-- Helper: the type-action descriptor as a function of the typed text. -/
theorem describeAction_type_eq (s : List Char) :
    describeAction (lit "computer") { action := some (lit "type"), text := some s } =
      (if s.length > 0 then lit "Type text: " ++ List.replicate s.length '*'
       else lit "Type text") := by
  rfl

/-- C3: `should_prompt` returns true in AlwaysConfirm mode, false in Minimal
mode, and in SensitiveOnly mode returns true iff the descriptor, lowercased
character-wise, contains some keyword of the fixed sensitive set as a
substring. -/
theorem C3_should_prompt_policy (d : List Char) :
    shouldPromptForAction .always_confirm d = true ∧
    shouldPromptForAction .minimal d = false ∧
    (shouldPromptForAction .sensitive_only d = true ↔
      ∃ kw ∈ sensitiveKeywords, kw <:+: lowerStr d) := by
  refine ⟨rfl, rfl, ?_⟩
  simp [shouldPromptForAction, containsSub]

/-- C4: the descriptor of a typed string of length N contains exactly N mask
characters, and two typed strings of equal length render to identical
descriptors (the descriptor depends only on the length of the input). -/
theorem C4_type_descriptor_masks (s t : List Char) :
    (describeAction (lit "computer")
        { action := some (lit "type"), text := some s }).count '*' = s.length ∧
    (s.length = t.length →
      describeAction (lit "computer") { action := some (lit "type"), text := some s } =
        describeAction (lit "computer") { action := some (lit "type"), text := some t }) := by
  constructor
  · rw [describeAction_type_eq]
    cases s with
    | nil => decide
    | cons c cs =>
      rw [if_pos (by simp)]
      rw [List.count_append, List.count_replicate_self]
      norm_num
      decide
  · intro h
    rw [describeAction_type_eq, describeAction_type_eq, h]

/-- C4 witness: a concrete three-character input renders with three masks, and
two distinct equal-length inputs render identically. -/
theorem C4_witness :
    (describeAction (lit "computer")
        { action := some (lit "type"), text := some (lit "abc") }).count '*' =
      (lit "abc").length ∧
    describeAction (lit "computer") { action := some (lit "type"), text := some (lit "abc") } =
      describeAction (lit "computer") { action := some (lit "type"), text := some (lit "xyz") } :=
  ⟨(C4_type_descriptor_masks (lit "abc") (lit "xyz")).1,
   (C4_type_descriptor_masks (lit "abc") (lit "xyz")).2 (by decide)⟩

/-- C6 counterexample: a ToolResult whose error field is set to the empty
string is an error result, yet it serializes to the fixed fallback string
"An error occurred" and not to its own error string. -/
theorem C6_counterexample :
    ({ error := some [] } : ToolResult).is_error = true ∧
    ({ error := some [] } : ToolResult).toApiResult = ApiRes.str (lit "An error occurred") ∧
    ({ error := some [] } : ToolResult).toApiResult ≠ ApiRes.str [] := by
  refine ⟨rfl, rfl, ?_⟩
  decide

/-- C6 amended: serialization of a ToolResult satisfies: an error result with
a nonempty error string serializes to that string regardless of the other
fields (an empty error string yields the fallback "An error occurred"); a
non-error result with a nonempty image serializes to the two-part list
[text, image] when nonempty output text is present and to the one-part list
[image] when the output is absent or empty; a non-error result with nonempty
output and no (or empty) image serializes to the plain output string. -/
theorem C6_wire_shape (r : ToolResult) (e i o : List Char) :
    (r.error = some e → e ≠ [] → r.toApiResult = ApiRes.str e) ∧
    (r.error = some [] → r.toApiResult = ApiRes.str (lit "An error occurred")) ∧
    (r.error = none → r.base64_image = some i → i ≠ [] → r.output = some o → o ≠ [] →
      r.toApiResult = ApiRes.blocks [ApiBlock.text o, ApiBlock.image i]) ∧
    (r.error = none → r.base64_image = some i → i ≠ [] → pyTruthy r.output = false →
      r.toApiResult = ApiRes.blocks [ApiBlock.image i]) ∧
    (r.error = none → pyTruthy r.base64_image = false → r.output = some o → o ≠ [] →
      r.toApiResult = ApiRes.str o) := by
  refine ⟨?_, ?_, ?_, ?_, ?_⟩ <;>
    simp_all [ToolResult.toApiResult, ToolResult.is_error, pyTruthy]

/-- C6 witness: the amended shapes evaluated on concrete results: an error
result with other fields set, an output+image result, an image-only result,
and an output-only result. -/
theorem C6_witness :
    ({ output := some (lit "o"), error := some (lit "boom"),
       base64_image := some (lit "img") } : ToolResult).toApiResult =
      ApiRes.str (lit "boom") ∧
    ({ output := some (lit "o"), base64_image := some (lit "img") } : ToolResult).toApiResult =
      ApiRes.blocks [ApiBlock.text (lit "o"), ApiBlock.image (lit "img")] ∧
    ({ base64_image := some (lit "img") } : ToolResult).toApiResult =
      ApiRes.blocks [ApiBlock.image (lit "img")] ∧
    ({ output := some (lit "o") } : ToolResult).toApiResult = ApiRes.str (lit "o") :=
  ⟨(C6_wire_shape _ (lit "boom") (lit "img") (lit "o")).1 rfl (by decide),
   (C6_wire_shape _ (lit "boom") (lit "img") (lit "o")).2.2.1 rfl rfl (by decide) rfl (by decide),
   (C6_wire_shape _ (lit "boom") (lit "img") (lit "o")).2.2.2.1 rfl rfl (by decide) rfl,
   (C6_wire_shape _ (lit "boom") (lit "img") (lit "o")).2.2.2.2 rfl rfl rfl (by decide)⟩

/-- C10: a ToolResult with no error, no output and no image serializes to the
fixed string "Action completed successfully.", and a credential request
answered with an empty, non-cancelled value yields a ToolResult with output ""
whose serialization is that same constant string. -/
theorem C10_empty_result_constant (r : ToolResult) (p : CredPrompts)
    (ctype service cm : Option (List Char)) :
    (r.error = none → r.output = none → r.base64_image = none →
      r.toApiResult = ApiRes.str (lit "Action completed successfully.")) ∧
    (requestedPrompt p (ctype.getD (lit "username")) (service.getD (lit "the service"))
        (cm.getD []) = some { value := [], cancelled := false } →
      credentialExecute p ctype service cm = { output := some [] } ∧
      (credentialExecute p ctype service cm).toApiResult =
        ApiRes.str (lit "Action completed successfully.")) := by
  constructor
  · intro h1 h2 h3
    simp [ToolResult.toApiResult, ToolResult.is_error, pyTruthy, h1, h2, h3]
  · intro h
    have he : credentialExecute p ctype service cm = { output := some [] } := by
      simp [credentialExecute, h]
    refine ⟨he, ?_⟩
    rw [he]
    rfl

/-- C10 witness: a concrete prompt bundle whose password prompt returns an
empty non-cancelled value, exercised through the credential tool. -/
theorem C10_witness :
    credentialExecute
        { username := fun _ => { value := lit "u" }, password := fun _ => { value := [] },
          twofa := { value := lit "1" }, custom := fun _ => { value := lit "c" } }
        (some (lit "password")) (some (lit "svc")) none = { output := some [] } ∧
    (credentialExecute
        { username := fun _ => { value := lit "u" }, password := fun _ => { value := [] },
          twofa := { value := lit "1" }, custom := fun _ => { value := lit "c" } }
        (some (lit "password")) (some (lit "svc")) none).toApiResult =
      ApiRes.str (lit "Action completed successfully.") ∧
    ({} : ToolResult).toApiResult = ApiRes.str (lit "Action completed successfully.") := by
  refine ⟨?_, ?_, ?_⟩
  · exact ((C10_empty_result_constant {}
      { username := fun _ => { value := lit "u" }, password := fun _ => { value := [] },
        twofa := { value := lit "1" }, custom := fun _ => { value := lit "c" } }
      (some (lit "password")) (some (lit "svc")) none).2 rfl).1
  · exact ((C10_empty_result_constant {}
      { username := fun _ => { value := lit "u" }, password := fun _ => { value := [] },
        twofa := { value := lit "1" }, custom := fun _ => { value := lit "c" } }
      (some (lit "password")) (some (lit "svc")) none).2 rfl).2
  · exact (C10_empty_result_constant {}
      { username := fun _ => { value := lit "u" }, password := fun _ => { value := [] },
        twofa := { value := lit "1" }, custom := fun _ => { value := lit "c" } }
      none none none).1 rfl rfl rfl

/-- C9: for every credential request, a cancelled human input yields an
error-flagged ToolResult ("no credential available"), while an empty but
non-cancelled value yields a non-error result carrying the empty value; an
interrupt during the password prompt itself produces a cancelled HumanInput
(distinct from the empty non-cancelled input) rather than an uncaught
failure. -/
theorem C9_cancel_vs_empty (p : CredPrompts) (ctype service cm : Option (List Char))
    (inp : HumanInput) :
    (requestedPrompt p (ctype.getD (lit "username")) (service.getD (lit "the service"))
        (cm.getD []) = some inp →
      (inp.cancelled = true →
        credentialExecute p ctype service cm =
          { error := some (lit "User cancelled the credential request") } ∧
        (credentialExecute p ctype service cm).is_error = true) ∧
      (inp.cancelled = false →
        credentialExecute p ctype service cm = { output := some inp.value } ∧
        (credentialExecute p ctype service cm).is_error = false)) ∧
    prompt_password (Except.error ()) = { value := [], cancelled := true } ∧
    prompt_password (Except.error ()) ≠ prompt_password (Except.ok []) := by
  refine ⟨?_, rfl, by decide⟩
  intro h
  constructor
  · intro hc
    constructor
    · simp [credentialExecute, h, hc]
    · simp [credentialExecute, h, hc, ToolResult.is_error]
  · intro hc
    constructor
    · simp [credentialExecute, h, hc]
    · simp [credentialExecute, h, hc, ToolResult.is_error]

/-- C9 witness: a password prompt interrupted by the user propagates as the
cancellation error result, while an empty non-cancelled password propagates as
a non-error result. -/
theorem C9_witness :
    credentialExecute
        { username := fun _ => { value := lit "u" },
          password := fun _ => prompt_password (Except.error ()),
          twofa := { value := lit "1" }, custom := fun _ => { value := lit "c" } }
        (some (lit "password")) (some (lit "svc")) none =
      { error := some (lit "User cancelled the credential request") } ∧
    (credentialExecute
        { username := fun _ => { value := lit "u" },
          password := fun _ => prompt_password (Except.ok []),
          twofa := { value := lit "1" }, custom := fun _ => { value := lit "c" } }
        (some (lit "password")) (some (lit "svc")) none).is_error = false := by
  constructor
  · exact ((C9_cancel_vs_empty
      { username := fun _ => { value := lit "u" },
        password := fun _ => prompt_password (Except.error ()),
        twofa := { value := lit "1" }, custom := fun _ => { value := lit "c" } }
      (some (lit "password")) (some (lit "svc")) none
      { value := [], cancelled := true }).1 rfl).1 rfl |>.1
  · exact (((C9_cancel_vs_empty
      { username := fun _ => { value := lit "u" },
        password := fun _ => prompt_password (Except.ok []),
        twofa := { value := lit "1" }, custom := fun _ => { value := lit "c" } }
      (some (lit "password")) (some (lit "svc")) none
      { value := [], cancelled := false }).1 rfl).2 rfl).2

/-- C2 counterexample: in AlwaysConfirm mode with a human who declines every
confirmation, a call whose tool name is unknown yields the unknown-tool error,
not the cancellation error the claim requires: the registry lookup precedes
the gate. -/
theorem C2_counterexample :
    executeTool agentToolNames .always_confirm (fun _ => false)
        (fun _ _ => { output := some (lit "ran") }) (lit "paint") {} =
      { error := some (lit "Unknown tool: paint") } ∧
    ({ error := some (lit "Unknown tool: paint") } : ToolResult) ≠
      { error := some (lit "Action cancelled by user") } := by
  refine ⟨rfl, ?_⟩
  decide

/-- C2 amended: the registry lookup precedes the gate: an unknown tool name
yields the unknown-tool error without consulting the gate (whatever the mode
or the human decision); for a registered tool the gate is consulted before
dispatch: a declined confirmation yields exactly the cancellation error and
the tool is not invoked (the result is independent of the dispatch oracle),
while a call that passes the gate is dispatched. -/
theorem C2_gate_after_lookup (names : List (List Char)) (mode : HumanLoopMode)
    (confirm : List Char → Bool) (dispatch : List Char → ToolInput → ToolResult)
    (n : List Char) (inp : ToolInput) :
    (names.contains n = false →
      executeTool names mode confirm dispatch n inp =
        { error := some (lit "Unknown tool: " ++ n) }) ∧
    (names.contains n = true →
      shouldPromptForAction mode (describeAction n inp) = true →
      confirm (describeAction n inp) = false →
      executeTool names mode confirm dispatch n inp =
        { error := some (lit "Action cancelled by user") }) ∧
    (names.contains n = true →
      (shouldPromptForAction mode (describeAction n inp) = false ∨
        confirm (describeAction n inp) = true) →
      executeTool names mode confirm dispatch n inp = dispatch n inp) := by
  refine ⟨?_, ?_, ?_⟩
  · intro h
    have h' : n ∉ names := by simpa using h
    simp [executeTool, h']
  · intro h hp hc
    have h' : n ∈ names := by simpa using h
    simp [executeTool, h', hp, hc]
  · intro h hd
    have h' : n ∈ names := by simpa using h
    cases hd with
    | inl hp => simp [executeTool, h', hp]
    | inr hc =>
      by_cases hp : shouldPromptForAction mode (describeAction n inp) = true
      · simp [executeTool, h', hp, hc]
      · simp at hp
        simp [executeTool, h', hp]

/-- C2 amended witness: a declined sensitive click on the registered computer
tool is cancelled without dispatch; an unknown tool name yields the
unknown-tool error; a confirmed call is dispatched. -/
theorem C2_witness :
    executeTool agentToolNames .always_confirm (fun _ => false)
        (fun _ _ => { output := some (lit "ran") }) (lit "computer") {} =
      { error := some (lit "Action cancelled by user") } ∧
    executeTool agentToolNames .always_confirm (fun _ => false)
        (fun _ _ => { output := some (lit "ran") }) (lit "paint") {} =
      { error := some (lit "Unknown tool: " ++ lit "paint") } ∧
    executeTool agentToolNames .always_confirm (fun _ => true)
        (fun _ _ => { output := some (lit "ran") }) (lit "computer") {} =
      { output := some (lit "ran") } := by
  refine ⟨?_, ?_, ?_⟩
  · exact (C2_gate_after_lookup agentToolNames .always_confirm (fun _ => false)
      (fun _ _ => { output := some (lit "ran") }) (lit "computer") {}).2.1
      (by decide) rfl rfl
  · exact (C2_gate_after_lookup agentToolNames .always_confirm (fun _ => false)
      (fun _ _ => { output := some (lit "ran") }) (lit "paint") {}).1 (by decide)
  · exact (C2_gate_after_lookup agentToolNames .always_confirm (fun _ => true)
      (fun _ _ => { output := some (lit "ran") }) (lit "computer") {}).2.2
      (by decide) (Or.inr rfl)

/-- C8: every per-type solve operation is total over its vendor-call outcome:
a thrown vendor exception or a malformed/absent response yields success=false
with a nonempty error message, and success=true holds only when the vendor
returned a response carrying the field specific to that CAPTCHA type, whose
value becomes the solution. -/
theorem C8_solvers_total (v : VendorCall) (url key : List Char)
    (readF : List Char → Except (List Char) (List Char))
    (ipath ib64 : Option (List Char)) :
    ((solve_amazon_waf v url).success = false →
      ∃ e, (solve_amazon_waf v url).error = some e ∧ e ≠ []) ∧
    ((solve_amazon_waf v url).success = true →
      ∃ r s, v = .ok (some r) ∧ r.solution = some s ∧
        (solve_amazon_waf v url).solution = some s) ∧
    ((solve_recaptcha_v2 v url key).success = false →
      ∃ e, (solve_recaptcha_v2 v url key).error = some e ∧ e ≠ []) ∧
    ((solve_recaptcha_v2 v url key).success = true →
      ∃ r s, v = .ok (some r) ∧ r.gRecaptchaResponse = some s ∧
        (solve_recaptcha_v2 v url key).solution = some s) ∧
    ((solve_recaptcha_v3 v url key).success = false →
      ∃ e, (solve_recaptcha_v3 v url key).error = some e ∧ e ≠ []) ∧
    ((solve_recaptcha_v3 v url key).success = true →
      ∃ r s, v = .ok (some r) ∧ r.gRecaptchaResponse = some s ∧
        (solve_recaptcha_v3 v url key).solution = some s) ∧
    ((solve_turnstile v url key).success = false →
      ∃ e, (solve_turnstile v url key).error = some e ∧ e ≠ []) ∧
    ((solve_turnstile v url key).success = true →
      ∃ r s, v = .ok (some r) ∧ r.token = some s ∧
        (solve_turnstile v url key).solution = some s) ∧
    ((solve_image_captcha readF v ipath ib64).success = false →
      ∃ e, (solve_image_captcha readF v ipath ib64).error = some e ∧ e ≠ []) ∧
    ((solve_image_captcha readF v ipath ib64).success = true →
      ∃ r s, v = .ok (some r) ∧ r.text = some s ∧
        (solve_image_captcha readF v ipath ib64).solution = some s) := by
  have hamz : ∀ m : List Char, lit "Amazon WAF CAPTCHA solving failed: " ++ m ≠ [] := by
    intro m hm
    exact absurd (congrArg List.length hm) (by simp [lit])
  have hv2 : ∀ m : List Char, lit "reCAPTCHA v2 solving failed: " ++ m ≠ [] := by
    intro m hm
    exact absurd (congrArg List.length hm) (by simp [lit])
  have hv3 : ∀ m : List Char, lit "reCAPTCHA v3 solving failed: " ++ m ≠ [] := by
    intro m hm
    exact absurd (congrArg List.length hm) (by simp [lit])
  have hts : ∀ m : List Char, lit "Turnstile solving failed: " ++ m ≠ [] := by
    intro m hm
    exact absurd (congrArg List.length hm) (by simp [lit])
  have himg : ∀ m : List Char, lit "Image CAPTCHA solving failed: " ++ m ≠ [] := by
    intro m hm
    exact absurd (congrArg List.length hm) (by simp [lit])
  have hnos : lit "No solution returned from CapMonster" ≠ [] := by decide
  have hnoi : lit "No image provided" ≠ [] := by decide
  refine ⟨?_, ?_, ?_, ?_, ?_, ?_, ?_, ?_, ?_, ?_⟩
  · rcases v with e | rv
    · exact fun _ => ⟨_, rfl, hamz e⟩
    · rcases rv with _ | r
      · exact fun _ => ⟨_, rfl, hnos⟩
      · rcases hs : r.solution with _ | s
        · exact fun _ => ⟨_, by simp [solve_amazon_waf, hs, noSolutionResult], hnos⟩
        · intro hf
          exact absurd hf (by simp [solve_amazon_waf, hs])
  · rcases v with e | rv
    · exact fun hf => absurd hf (by simp [solve_amazon_waf])
    · rcases rv with _ | r
      · exact fun hf => absurd hf (by simp [solve_amazon_waf, noSolutionResult])
      · rcases hs : r.solution with _ | s
        · exact fun hf => absurd hf (by simp [solve_amazon_waf, hs, noSolutionResult])
        · exact fun _ => ⟨r, s, rfl, hs, by simp [solve_amazon_waf, hs]⟩
  · rcases v with e | rv
    · exact fun _ => ⟨_, rfl, hv2 e⟩
    · rcases rv with _ | r
      · exact fun _ => ⟨_, rfl, hnos⟩
      · rcases hs : r.gRecaptchaResponse with _ | s
        · exact fun _ => ⟨_, by simp [solve_recaptcha_v2, hs, noSolutionResult], hnos⟩
        · intro hf
          exact absurd hf (by simp [solve_recaptcha_v2, hs])
  · rcases v with e | rv
    · exact fun hf => absurd hf (by simp [solve_recaptcha_v2])
    · rcases rv with _ | r
      · exact fun hf => absurd hf (by simp [solve_recaptcha_v2, noSolutionResult])
      · rcases hs : r.gRecaptchaResponse with _ | s
        · exact fun hf => absurd hf (by simp [solve_recaptcha_v2, hs, noSolutionResult])
        · exact fun _ => ⟨r, s, rfl, hs, by simp [solve_recaptcha_v2, hs]⟩
  · rcases v with e | rv
    · exact fun _ => ⟨_, rfl, hv3 e⟩
    · rcases rv with _ | r
      · exact fun _ => ⟨_, rfl, hnos⟩
      · rcases hs : r.gRecaptchaResponse with _ | s
        · exact fun _ => ⟨_, by simp [solve_recaptcha_v3, hs, noSolutionResult], hnos⟩
        · intro hf
          exact absurd hf (by simp [solve_recaptcha_v3, hs])
  · rcases v with e | rv
    · exact fun hf => absurd hf (by simp [solve_recaptcha_v3])
    · rcases rv with _ | r
      · exact fun hf => absurd hf (by simp [solve_recaptcha_v3, noSolutionResult])
      · rcases hs : r.gRecaptchaResponse with _ | s
        · exact fun hf => absurd hf (by simp [solve_recaptcha_v3, hs, noSolutionResult])
        · exact fun _ => ⟨r, s, rfl, hs, by simp [solve_recaptcha_v3, hs]⟩
  · rcases v with e | rv
    · exact fun _ => ⟨_, rfl, hts e⟩
    · rcases rv with _ | r
      · exact fun _ => ⟨_, rfl, hnos⟩
      · rcases hs : r.token with _ | s
        · exact fun _ => ⟨_, by simp [solve_turnstile, hs, noSolutionResult], hnos⟩
        · intro hf
          exact absurd hf (by simp [solve_turnstile, hs])
  · rcases v with e | rv
    · exact fun hf => absurd hf (by simp [solve_turnstile])
    · rcases rv with _ | r
      · exact fun hf => absurd hf (by simp [solve_turnstile, noSolutionResult])
      · rcases hs : r.token with _ | s
        · exact fun hf => absurd hf (by simp [solve_turnstile, hs, noSolutionResult])
        · exact fun _ => ⟨r, s, rfl, hs, by simp [solve_turnstile, hs]⟩
  · unfold solve_image_captcha
    rcases hload : loadedImage readF ipath ib64 with e | b64
    · exact fun _ => ⟨_, rfl, himg e⟩
    · rcases htr : pyTruthy b64 with _ | _
      · simp only [htr, Bool.not_false, if_true]
        exact fun _ => ⟨_, rfl, hnoi⟩
      · simp only [htr, Bool.not_true, Bool.false_eq_true, if_false]
        rcases v with e | rv
        · exact fun _ => ⟨_, rfl, himg e⟩
        · rcases rv with _ | r
          · exact fun _ => ⟨_, rfl, hnos⟩
          · rcases hs : r.text with _ | s
            · simp only [hs]
              exact fun _ => ⟨_, rfl, hnos⟩
            · simp only [hs]
              intro hf
              exact absurd hf (by simp)
  · unfold solve_image_captcha
    rcases hload : loadedImage readF ipath ib64 with e | b64
    · intro hf
      exact absurd hf (by simp)
    · rcases htr : pyTruthy b64 with _ | _
      · simp only [htr, Bool.not_false, if_true]
        intro hf
        exact absurd hf (by simp)
      · simp only [htr, Bool.not_true, Bool.false_eq_true, if_false]
        rcases v with e | rv
        · intro hf
          exact absurd hf (by simp)
        · rcases rv with _ | r
          · intro hf
            exact absurd hf (by simp [noSolutionResult])
          · rcases hs : r.text with _ | s
            · simp only [hs]
              intro hf
              exact absurd hf (by simp [noSolutionResult])
            · simp only [hs]
              exact fun _ => ⟨r, s, rfl, hs, rfl⟩

/-- C8 witness: a thrown vendor exception yields a nonempty error for the
Amazon-WAF solver, and a vendor response carrying a token yields a successful
Turnstile solution extracted from that field. -/
theorem C8_witness :
    (∃ e, (solve_amazon_waf (Except.error (lit "net down")) (lit "u")).error = some e ∧
      e ≠ []) ∧
    (∃ r s, (Except.ok (some ({ token := some (lit "tok") } : VendorResponse)) :
        VendorCall) = Except.ok (some r) ∧ r.token = some s ∧
      (solve_turnstile (Except.ok (some { token := some (lit "tok") }))
          (lit "u") (lit "k")).solution = some s) := by
  constructor
  · exact (C8_solvers_total (Except.error (lit "net down")) (lit "u") (lit "k")
      (fun _ => Except.ok (lit "A")) none (some (lit "IMG"))).1 rfl
  · exact (C8_solvers_total (Except.ok (some { token := some (lit "tok") })) (lit "u")
      (lit "k") (fun _ => Except.ok (lit "A")) none
      (some (lit "IMG"))).2.2.2.2.2.2.2.1 rfl

/-- C5: detect_and_solve performs ordered, first-match-wins detection over the
HTML: the Amazon rule (an awswaf marker in the lowercased HTML, or "amazon"
occurring in the lowercased URL — in particular any URL whose domain indicates
Amazon) wins first; otherwise a reCAPTCHA-v3 render marker with an extractable
site key selects reCAPTCHA v3, falling through on extraction failure; then a
reCAPTCHA-v2 marker, then a Turnstile marker, so HTML containing both a
reCAPTCHA-v2 marker and a Turnstile marker selects reCAPTCHA v2; if no HTML
rule matched and a nonempty screenshot is available it is submitted to
image-to-text; with neither, the result is the fixed could-not-detect
failure. -/
theorem C5_detection_chain (solve : Detection → CaptchaResult)
    (url h k s : List Char) (html ss : Option (List Char)) :
    (h ≠ [] →
      (containsSub (lit "awswaf") (lowerStr h) ||
        containsSub (lit "amazon") (lowerStr url)) = true →
      detectAndSolve solve url (some h) ss = solve (.amazonWaf url)) ∧
    (h ≠ [] →
      (containsSub (lit "awswaf") (lowerStr h) ||
        containsSub (lit "amazon") (lowerStr url)) = false →
      containsSub (lit "recaptcha/api.js?render=") (lowerStr h) = true →
      searchRenderKey h = some k →
      detectAndSolve solve url (some h) ss = solve (.recaptchaV3 url k)) ∧
    (h ≠ [] →
      (containsSub (lit "awswaf") (lowerStr h) ||
        containsSub (lit "amazon") (lowerStr url)) = false →
      (containsSub (lit "recaptcha/api.js?render=") (lowerStr h) = false ∨
        searchRenderKey h = none) →
      (containsSub (lit "g-recaptcha") (lowerStr h) ||
        containsSub (lit "recaptcha") (lowerStr h)) = true →
      searchSiteKey h = some k →
      detectAndSolve solve url (some h) ss = solve (.recaptchaV2 url k)) ∧
    (h ≠ [] →
      (containsSub (lit "awswaf") (lowerStr h) ||
        containsSub (lit "amazon") (lowerStr url)) = false →
      (containsSub (lit "recaptcha/api.js?render=") (lowerStr h) = false ∨
        searchRenderKey h = none) →
      (containsSub (lit "g-recaptcha") (lowerStr h) ||
        containsSub (lit "recaptcha") (lowerStr h)) = false →
      (containsSub (lit "turnstile") (lowerStr h) ||
        containsSub (lit "cf-turnstile") (lowerStr h)) = true →
      searchSiteKey h = some k →
      detectAndSolve solve url (some h) ss = solve (.turnstile url k)) ∧
    (h ≠ [] →
      (containsSub (lit "awswaf") (lowerStr h) ||
        containsSub (lit "amazon") (lowerStr url)) = false →
      (containsSub (lit "recaptcha/api.js?render=") (lowerStr h) = false ∨
        searchRenderKey h = none) →
      containsSub (lit "g-recaptcha") (lowerStr h) = true →
      containsSub (lit "turnstile") (lowerStr h) = true →
      searchSiteKey h = some k →
      detectAndSolve solve url (some h) ss = solve (.recaptchaV2 url k)) ∧
    (htmlDetection url html = none → s ≠ [] →
      detectAndSolve solve url html (some s) = solve (.imageToText s)) ∧
    (htmlDetection url html = none →
      detectAndSolve solve url html none = noDetectResult ∧
      detectAndSolve solve url html (some []) = noDetectResult) := by
  refine ⟨?_, ?_, ?_, ?_, ?_, ?_, ?_⟩
  · intro hne hg
    simp [detectAndSolve, htmlDetection, detectFromHtml, hne, hg]
  · intro hne hg hg3 hrk
    simp [detectAndSolve, htmlDetection, detectFromHtml, hne, hg, hg3, hrk]
  · intro hne hg h3 hg2 hsk
    rcases h3 with hg3 | hrk
    · simp [detectAndSolve, htmlDetection, detectFromHtml, hne, hg, hg3, hg2, hsk]
    · by_cases hg3 : containsSub (lit "recaptcha/api.js?render=") (lowerStr h) = true
      · simp [detectAndSolve, htmlDetection, detectFromHtml, hne, hg, hg3, hrk, hg2, hsk]
      · simp only [Bool.not_eq_true] at hg3
        simp [detectAndSolve, htmlDetection, detectFromHtml, hne, hg, hg3, hg2, hsk]
  · intro hne hg h3 hg2 hgt hsk
    rcases h3 with hg3 | hrk
    · simp [detectAndSolve, htmlDetection, detectFromHtml, hne, hg, hg3, hg2, hgt, hsk]
    · by_cases hg3 : containsSub (lit "recaptcha/api.js?render=") (lowerStr h) = true
      · simp [detectAndSolve, htmlDetection, detectFromHtml, hne, hg, hg3, hrk, hg2, hgt, hsk]
      · simp only [Bool.not_eq_true] at hg3
        simp [detectAndSolve, htmlDetection, detectFromHtml, hne, hg, hg3, hg2, hgt, hsk]
  · intro hne hg h3 hg2 hgt hsk
    have hg2' : (containsSub (lit "g-recaptcha") (lowerStr h) ||
        containsSub (lit "recaptcha") (lowerStr h)) = true := by
      simp [hg2]
    rcases h3 with hg3 | hrk
    · simp [detectAndSolve, htmlDetection, detectFromHtml, hne, hg, hg3, hg2', hsk]
    · by_cases hg3 : containsSub (lit "recaptcha/api.js?render=") (lowerStr h) = true
      · simp [detectAndSolve, htmlDetection, detectFromHtml, hne, hg, hg3, hrk, hg2', hsk]
      · simp only [Bool.not_eq_true] at hg3
        simp [detectAndSolve, htmlDetection, detectFromHtml, hne, hg, hg3, hg2', hsk]
  · intro hd hs
    simp [detectAndSolve, hd, hs]
  · intro hd
    constructor
    · simp [detectAndSolve, hd]
    · simp [detectAndSolve, hd]

set_option maxRecDepth 100000 in
/-- C5 witness: HTML carrying both a reCAPTCHA-v2 marker and a Turnstile
marker with an extractable site key dispatches to the reCAPTCHA-v2 path, and
with no HTML and no screenshot the fixed could-not-detect failure is
returned. -/
theorem C5_witness :
    detectAndSolve (fun _ => { success := true }) (lit "https://example.com/page")
        (some (lit "<div class=\"g-recaptcha\" data-sitekey=\"KEY123\"></div><div class=\"cf-turnstile\"></div>"))
        none =
      (fun _ => ({ success := true } : CaptchaResult))
        (Detection.recaptchaV2 (lit "https://example.com/page") (lit "KEY123")) ∧
    detectAndSolve (fun _ => { success := true }) (lit "https://example.com/page")
        none none = noDetectResult := by
  constructor
  · exact (C5_detection_chain (fun _ => { success := true })
      (lit "https://example.com/page")
      (lit "<div class=\"g-recaptcha\" data-sitekey=\"KEY123\"></div><div class=\"cf-turnstile\"></div>")
      (lit "KEY123") [] none none).2.2.2.2.1 (by decide) (by decide)
      (Or.inl (by decide)) (by decide) (by decide) (by decide)
  · exact ((C5_detection_chain (fun _ => { success := true })
      (lit "https://example.com/page") [] [] [] none none).2.2.2.2.2.2 rfl).1

/-- Helper: the wire results produced for a turn carry exactly the ids of its
tool_use blocks, in order. -/
theorem processTools_map_tool_use_id (execTool : List Char → ToolInput → ToolResult)
    (blocks : List ContentBlock) :
    (processTools execTool blocks).map ToolResultWire.tool_use_id = toolUseIds blocks := by
  induction blocks with
  | nil => rfl
  | cons b rest ih => cases b <;> simp [processTools, toolUseIds, ih]

/-- C1: for a turn containing tool_use blocks, the loop appends the assistant
turn followed by exactly one user message whose tool results match the
tool_use blocks one-to-one — same count, same tool_use_id, same relative
order — and each continuing iteration of runAux proceeds through exactly this
step. -/
theorem C1_results_match_uses (execTool : List Char → ToolInput → ToolResult)
    (model : List Message → Except (List Char) ModelResponse)
    (blocks : List ContentBlock) (msgs : List Message) (r rr : ModelResponse) (fuel : Nat) :
    ((processTools execTool blocks).map ToolResultWire.tool_use_id = toolUseIds blocks) ∧
    (toolUseIds r.content ≠ [] →
      stepResponse execTool msgs r =
        msgs ++ [{ role := lit "assistant", content := .blocks r.content },
          { role := lit "user", content := .results (processTools execTool r.content) }]) ∧
    (model msgs = .ok rr → rr.stop_reason ≠ lit "end_turn" →
      runAux model execTool (fuel + 1) msgs =
        { final := (runAux model execTool fuel (stepResponse execTool msgs rr)).final,
          modelCalls :=
            (runAux model execTool fuel (stepResponse execTool msgs rr)).modelCalls + 1,
          messages := (runAux model execTool fuel (stepResponse execTool msgs rr)).messages }) := by
  refine ⟨processTools_map_tool_use_id execTool blocks, ?_, ?_⟩
  · intro hne
    have hempty : (processTools execTool r.content).isEmpty = false := by
      rcases hp : processTools execTool r.content with _ | ⟨w, ws⟩
      · have h0 := processTools_map_tool_use_id execTool r.content
        rw [hp] at h0
        simp at h0
        exact absurd h0 hne
      · rfl
    simp [stepResponse, hempty]
  · intro hm hstop
    simp [runAux, hm, hstop]

/-- C1 witness: a turn with one tool_use block produces exactly one following
user message carrying one result with the same id, and the loop steps through
it. -/
theorem C1_witness :
    stepResponse (fun _ _ => { output := some (lit "done") }) []
        { stop_reason := lit "tool_use",
          content := [ContentBlock.toolUse (lit "id1") (lit "computer") {}] } =
      [{ role := lit "assistant",
         content := .blocks [ContentBlock.toolUse (lit "id1") (lit "computer") {}] },
       { role := lit "user",
         content := .results (processTools (fun _ _ => { output := some (lit "done") })
           [ContentBlock.toolUse (lit "id1") (lit "computer") {}]) }] ∧
    runAux (fun _ => Except.ok
        ({ stop_reason := lit "tool_use",
           content := [ContentBlock.toolUse (lit "id1") (lit "computer") {}] } :
          ModelResponse))
        (fun _ _ => { output := some (lit "done") }) 1 [] =
      { final := (runAux (fun _ => Except.ok
            ({ stop_reason := lit "tool_use",
               content := [ContentBlock.toolUse (lit "id1") (lit "computer") {}] } :
              ModelResponse))
          (fun _ _ => { output := some (lit "done") }) 0
          (stepResponse (fun _ _ => { output := some (lit "done") }) []
            { stop_reason := lit "tool_use",
              content := [ContentBlock.toolUse (lit "id1") (lit "computer") {}] })).final,
        modelCalls := (runAux (fun _ => Except.ok
            ({ stop_reason := lit "tool_use",
               content := [ContentBlock.toolUse (lit "id1") (lit "computer") {}] } :
              ModelResponse))
          (fun _ _ => { output := some (lit "done") }) 0
          (stepResponse (fun _ _ => { output := some (lit "done") }) []
            { stop_reason := lit "tool_use",
              content := [ContentBlock.toolUse (lit "id1") (lit "computer") {}] })).modelCalls + 1,
        messages := (runAux (fun _ => Except.ok
            ({ stop_reason := lit "tool_use",
               content := [ContentBlock.toolUse (lit "id1") (lit "computer") {}] } :
              ModelResponse))
          (fun _ _ => { output := some (lit "done") }) 0
          (stepResponse (fun _ _ => { output := some (lit "done") }) []
            { stop_reason := lit "tool_use",
              content := [ContentBlock.toolUse (lit "id1") (lit "computer") {}] })).messages } := by
  constructor
  · exact (C1_results_match_uses (fun _ _ => { output := some (lit "done") })
      (fun _ => Except.ok
        ({ stop_reason := lit "tool_use",
           content := [ContentBlock.toolUse (lit "id1") (lit "computer") {}] } :
          ModelResponse)) [] []
      { stop_reason := lit "tool_use",
        content := [ContentBlock.toolUse (lit "id1") (lit "computer") {}] }
      { stop_reason := lit "tool_use",
        content := [ContentBlock.toolUse (lit "id1") (lit "computer") {}] } 0).2.1
      (by decide)
  · exact (C1_results_match_uses (fun _ _ => { output := some (lit "done") })
      (fun _ => Except.ok
        ({ stop_reason := lit "tool_use",
           content := [ContentBlock.toolUse (lit "id1") (lit "computer") {}] } :
          ModelResponse)) [] []
      { stop_reason := lit "tool_use",
        content := [ContentBlock.toolUse (lit "id1") (lit "computer") {}] }
      { stop_reason := lit "tool_use",
        content := [ContentBlock.toolUse (lit "id1") (lit "computer") {}] } 0).2.2
      rfl (by decide)

/-- Helper: the loop makes at most `fuel` model calls. -/
theorem runAux_modelCalls_le (model : List Message → Except (List Char) ModelResponse)
    (execTool : List Char → ToolInput → ToolResult) (fuel : Nat) :
    ∀ msgs, (runAux model execTool fuel msgs).modelCalls ≤ fuel := by
  induction fuel with
  | zero => intro msgs; exact Nat.le_refl 0
  | succ n ih =>
    intro msgs
    rcases hm : model msgs with e | r
    · simp [runAux, hm]
    · by_cases hs : r.stop_reason = lit "end_turn"
      · simp [runAux, hm, hs]
      · simp [runAux, hm, hs]
        have := ih (stepResponse execTool msgs r)
        omega

/-- Helper: when the model never signals completion, the loop exhausts its
budget, makes exactly `fuel` model calls and returns the sentinel string. -/
theorem runAux_never_end (model : List Message → Except (List Char) ModelResponse)
    (execTool : List Char → ToolInput → ToolResult)
    (hmodel : ∀ ms, ∃ r, model ms = .ok r ∧ r.stop_reason ≠ lit "end_turn")
    (fuel : Nat) : ∀ msgs,
      (runAux model execTool fuel msgs).final =
        lit "Task incomplete: maximum iterations reached" ∧
      (runAux model execTool fuel msgs).modelCalls = fuel := by
  induction fuel with
  | zero => intro msgs; exact ⟨rfl, rfl⟩
  | succ n ih =>
    intro msgs
    obtain ⟨r, hm, hs⟩ := hmodel msgs
    have hrec := ih (stepResponse execTool msgs r)
    constructor <;> simp [runAux, hm, hs, hrec.1, hrec.2]

/-- C7: a run with budget n makes at most n model calls; a response whose stop
signal is end_turn makes the run return the concatenation of its text blocks
after that single call; and if the model never signals completion the run
terminates with the fixed sentinel message after exactly n model calls (so
with max_iterations = 1 exactly one model call occurs). -/
theorem C7_budget_and_termination (model : List Message → Except (List Char) ModelResponse)
    (execTool : List Char → ToolInput → ToolResult) (task : List Char)
    (n fuel : Nat) (msgs : List Message) (r : ModelResponse) :
    ((run model execTool task n).modelCalls ≤ n) ∧
    (model msgs = .ok r → r.stop_reason = lit "end_turn" →
      (runAux model execTool (fuel + 1) msgs).final = concatTexts r.content ∧
      (runAux model execTool (fuel + 1) msgs).modelCalls = 1) ∧
    ((∀ ms, ∃ rr, model ms = .ok rr ∧ rr.stop_reason ≠ lit "end_turn") →
      (run model execTool task n).final =
        lit "Task incomplete: maximum iterations reached" ∧
      (run model execTool task n).modelCalls = n) := by
  refine ⟨runAux_modelCalls_le model execTool n _, ?_, ?_⟩
  · intro hm hs
    constructor <;> simp [runAux, hm, hs]
  · intro hmodel
    exact runAux_never_end model execTool hmodel n _

/-- C7 witness: a completing response returns its concatenated text after one
call, and a never-completing model with budget 1 terminates with the sentinel
after exactly one model call. -/
theorem C7_witness :
    ((runAux (fun _ => Except.ok
        ({ stop_reason := lit "end_turn", content := [ContentBlock.text (lit "hi")] } :
          ModelResponse))
      (fun _ _ => { output := some (lit "done") }) 1 []).final =
        concatTexts [ContentBlock.text (lit "hi")] ∧
     (runAux (fun _ => Except.ok
        ({ stop_reason := lit "end_turn", content := [ContentBlock.text (lit "hi")] } :
          ModelResponse))
      (fun _ _ => { output := some (lit "done") }) 1 []).modelCalls = 1) ∧
    ((run (fun _ => Except.ok ({ stop_reason := lit "tool_use", content := [] } :
          ModelResponse))
      (fun _ _ => { output := some (lit "done") }) (lit "task") 1).final =
        lit "Task incomplete: maximum iterations reached" ∧
     (run (fun _ => Except.ok ({ stop_reason := lit "tool_use", content := [] } :
          ModelResponse))
      (fun _ _ => { output := some (lit "done") }) (lit "task") 1).modelCalls = 1) := by
  constructor
  · exact (C7_budget_and_termination (fun _ => Except.ok
      ({ stop_reason := lit "end_turn", content := [ContentBlock.text (lit "hi")] } :
        ModelResponse))
      (fun _ _ => { output := some (lit "done") }) (lit "task") 1 0 []
      { stop_reason := lit "end_turn", content := [ContentBlock.text (lit "hi")] }).2.1
      rfl rfl
  · exact (C7_budget_and_termination (fun _ => Except.ok
      ({ stop_reason := lit "tool_use", content := [] } : ModelResponse))
      (fun _ _ => { output := some (lit "done") }) (lit "task") 1 0 []
      { stop_reason := lit "tool_use", content := [] }).2.2
      (fun ms => ⟨{ stop_reason := lit "tool_use", content := [] }, rfl, by decide⟩)

end CUA
